import Mathlib

/-!
# Verification of the llama bridge (app/ios/Classes/llama_bridge.cpp)

A shallow embedding of the C-callable bridge: the model registry
(g_models, g_next_model_id), the load / unload operations, the generation
pipeline and the embedding pipeline.

The inference engine (llama.cpp) is external to the repository.  Every value
the engine hands back during one bridge call is an argument of that call
(LoadEngine, GenEngine, EmbedEngine), so a theorem quantified over these
arguments holds for every behaviour of the engine.  The calls the bridge makes
into the engine are recorded, in order, in the trace of the state, and the
shared backend is a boolean of the state that llama_backend_init sets and
llama_backend_free clears.

Integers of type int32_t are Int; the two places where the source can leave the
int32 range (the post-increment of g_next_model_id and the conversion of
generated_text.length() to int32_t) go through wrap_int32.  For the
post-increment this is signed overflow, which C++ leaves undefined; wrap_int32
is the two's complement result the targets of the bridge produce.
-/

namespace LlamaBridge

/-! ## Error codes (llama_bridge.h) -/

def LLAMA_BRIDGE_SUCCESS : Int := 0
def LLAMA_BRIDGE_ERROR_INVALID_MODEL_ID : Int := -1
def LLAMA_BRIDGE_ERROR_MODEL_NOT_FOUND : Int := -2
def LLAMA_BRIDGE_ERROR_BUFFER_TOO_SMALL : Int := -3
def LLAMA_BRIDGE_ERROR_INVALID_PARAM : Int := -4
def LLAMA_BRIDGE_ERROR_MODEL_LOAD_FAILED : Int := -5
def LLAMA_BRIDGE_ERROR_DECODE_FAILED : Int := -6
def LLAMA_BRIDGE_ERROR_EMBEDDING_FAILED : Int := -7

/-- Value of an integer once stored in an int32_t (two's complement). -/
def wrap_int32 (x : Int) : Int := (x + 2147483648) % 4294967296 - 2147483648

/-! ## Engine objects -/

/-- Loaded model weights, an object of the engine.  The bridge only ever reads
its embedding width (llama_model_n_embd); addr tells two objects apart. -/
structure llama_model where
  addr : Nat
  n_embd : Int
deriving DecidableEq, Repr

/-- Inference context of the engine, derived from a model. -/
structure llama_context where
  addr : Nat
deriving DecidableEq, Repr

/-- The fields of llama_context_params that llama_load_model sets. -/
structure llama_context_params where
  embeddings : Bool
  n_ctx : Int
  n_batch : Int
  n_ubatch : Int
  n_threads : Int
  n_threads_batch : Int
deriving DecidableEq, Repr

/-- The sampler stages llama_generate_text puts in its chain (lines 230-234);
top_p, min_p and temp carry their constants 0.9, 0.1 and 0.7 in the source. -/
inductive SamplerStage where
  | top_k (k : Int)
  | top_p
  | min_p
  | temp
  | dist (seed : Nat)
deriving DecidableEq, Repr

/-- One call from the bridge into the engine.  The helpers whose result is consumed
on the spot (llama_get_memory, llama_batch_get_one, the llama_sampler_init_*
constructors) are part of the call that takes their result. -/
inductive EngineCall where
  | log_set
  | backend_init
  | backend_free
  | model_default_params
  | model_load_from_file (path : String)
  | context_default_params
  | init_from_model (model : llama_model) (params : llama_context_params)
  | model_free (model : llama_model)
  | free (ctx : llama_context)
  | model_get_vocab (model : Option llama_model)
  | set_embeddings (ctx : Option llama_context) (value : Bool)
  | memory_clear (ctx : Option llama_context)
  | tokenize (text : String) (n_tokens_max : Int)
  | decode (ctx : Option llama_context)
  | sampler_chain_init
  | sampler_chain_add (stage : SamplerStage)
  | sampler_sample
  | vocab_is_eog (token : Int)
  | token_to_piece (token : Int)
  | sampler_free
  | pooling_type
  | get_embeddings_ith
  | get_embeddings_seq
  | model_n_embd (model : Option llama_model)
deriving DecidableEq, Repr

/-! ## Registry -/

/-- The struct ModelContext of the source; a null pointer is none. -/
structure ModelContext where
  model : Option llama_model
  ctx : Option llama_context
  is_embedding : Bool
deriving DecidableEq, Repr

/-- The globals of the bridge (g_models, g_next_model_id) together with the
state of the engine the claims speak about: whether the shared backend is
initialised, and the calls made into the engine so far (oldest first).
g_models is an association list read through map_find, map_assign, map_erase. -/
structure State where
  g_models : List (Int × ModelContext)
  g_next_model_id : Int
  backend : Bool
  trace : List EngineCall
deriving DecidableEq, Repr

/-- The state at process start: empty map, next id 1, backend not initialised. -/
def State.initial : State :=
  { g_models := [], g_next_model_id := 1, backend := false, trace := [] }

/-- Lookup g_models.find(model_id); none is g_models.end(). -/
def map_find (m : List (Int × ModelContext)) (model_id : Int) : Option ModelContext :=
  (m.find? (fun kv => decide (kv.1 = model_id))).map (fun kv => kv.2)

/-- Removal g_models.erase(it) of the entry with key model_id. -/
def map_erase (m : List (Int × ModelContext)) (model_id : Int) : List (Int × ModelContext) :=
  m.filter (fun kv => !decide (kv.1 = model_id))

/-- Assignment g_models[model_id] = model_ctx (insert, or overwrite an existing key). -/
def map_assign (m : List (Int × ModelContext)) (model_id : Int) (model_ctx : ModelContext) :
    List (Int × ModelContext) :=
  (model_id, model_ctx) :: map_erase m model_id

/-- Record one call into the engine. -/
def State.call (s : State) (c : EngineCall) : State :=
  { s with trace := s.trace ++ [c] }

/-- Engine call llama_backend_init: the shared backend is initialised. -/
def llama_backend_init (s : State) : State :=
  { s with backend := true, trace := s.trace ++ [EngineCall.backend_init] }

/-- Engine call llama_backend_free: the shared backend is torn down. -/
def llama_backend_free (s : State) : State :=
  { s with backend := false, trace := s.trace ++ [EngineCall.backend_free] }

/-- Result of a bridge call without output buffer: return value and new state. -/
structure Ret where
  ret : Int
  state : State
deriving DecidableEq, Repr

/-- What the engine answers during one llama_load_model call:
model is the result of llama_model_load_from_file, ctx the result of
llama_init_from_model (none is a null pointer). -/
structure LoadEngine where
  model : Option llama_model
  ctx : Option llama_context
deriving DecidableEq, Repr

/-- Context parameters chosen by llama_load_model (lines 75-94). -/
def load_ctx_params (is_embedding : Int) : llama_context_params :=
  if is_embedding ≠ 0 then
    { embeddings := true, n_ctx := 32, n_batch := 128, n_ubatch := 128,
      n_threads := 4, n_threads_batch := 4 }
  else
    { embeddings := false, n_ctx := 2048, n_batch := 256, n_ubatch := 256,
      n_threads := 8, n_threads_batch := 8 }

/-- Function llama_load_model (lines 43-123); model_path none is a null pointer. -/
def llama_load_model (s : State) (model_path : Option String) (is_embedding : Int)
    (eng : LoadEngine) : Ret :=
  match model_path with
  | none => ⟨LLAMA_BRIDGE_ERROR_INVALID_PARAM, s⟩
  | some path =>
    let s1 := s.call EngineCall.log_set
    let s2 := llama_backend_init s1
    let s3 := s2.call EngineCall.model_default_params
    let s4 := s3.call (EngineCall.model_load_from_file path)
    match eng.model with
    | none => ⟨LLAMA_BRIDGE_ERROR_MODEL_LOAD_FAILED, llama_backend_free s4⟩
    | some model =>
      let s5 := s4.call EngineCall.context_default_params
      let s6 := s5.call (EngineCall.init_from_model model (load_ctx_params is_embedding))
      match eng.ctx with
      | none =>
        let s7 := s6.call (EngineCall.model_free model)
        ⟨LLAMA_BRIDGE_ERROR_MODEL_LOAD_FAILED, llama_backend_free s7⟩
      | some ctx =>
        let model_id := s6.g_next_model_id
        let model_ctx : ModelContext :=
          { model := some model, ctx := some ctx, is_embedding := decide (is_embedding ≠ 0) }
        ⟨model_id,
          { s6 with
            g_next_model_id := wrap_int32 (s6.g_next_model_id + 1),
            g_models := map_assign s6.g_models model_id model_ctx }⟩

/-- Function llama_unload_model (lines 128-159). -/
def llama_unload_model (s : State) (model_id : Int) : Ret :=
  match map_find s.g_models model_id with
  | none => ⟨LLAMA_BRIDGE_ERROR_INVALID_MODEL_ID, s⟩
  | some model_ctx =>
    let s1 := match model_ctx.ctx with
      | some ctx => s.call (EngineCall.free ctx)
      | none => s
    let s2 := match model_ctx.model with
      | some model => s1.call (EngineCall.model_free model)
      | none => s1
    let s3 := { s2 with g_models := map_erase s2.g_models model_id }
    let s4 := if s3.g_models.isEmpty then llama_backend_free s3 else s3
    ⟨LLAMA_BRIDGE_SUCCESS, s4⟩

/-! ## Generation pipeline -/

/-- What the engine answers during one llama_generate_text call.
n_tokens: llama_tokenize on the prompt; prime: llama_decode on the prompt batch;
sample i: llama_sampler_sample at loop iteration i; is_eog: llama_vocab_is_eog;
token_to_piece t: return value of llama_token_to_piece and the bytes it left in
token_text; decode i: llama_decode of the single token at loop iteration i. -/
structure GenEngine where
  n_tokens : Int
  prime : Int
  sample : Nat → Int
  is_eog : Int → Bool
  token_to_piece : Int → Int × List Nat
  decode : Nat → Int

/-- Constant max_gen_tokens of llama_generate_text. -/
def max_gen_tokens : Nat := 128

/-- The stack buffer char token_text[256] after llama_token_to_piece wrote bytes
into it: always 256 bytes, of which the engine set the first ones. -/
def token_text (bytes : List Nat) : List Nat :=
  (bytes ++ List.replicate 256 0).take 256

/-- Lines 250-253: generated_text.append(token_text, token_len) when token_len > 0.
The engine is given sizeof(token_text) = 256 as the size of the buffer, so the
bytes appended are bytes of that buffer. -/
def append_piece (generated_text : List Nat) (piece : Int × List Nat) : List Nat :=
  if piece.1 > 0 then generated_text ++ (token_text piece.2).take piece.1.toNat
  else generated_text

/-- The generation loop (lines 236-263), from iteration i with fuel iterations
left; returns generated_text and the trace.  The loop of the source is
generation_loop eng ctx max_gen_tokens 0. -/
def generation_loop (eng : GenEngine) (ctx : Option llama_context) :
    Nat → Nat → List Nat → List EngineCall → List Nat × List EngineCall
  | 0, _, generated_text, tr => (generated_text, tr)
  | fuel + 1, i, generated_text, tr =>
    let new_token_id := eng.sample i
    let tr1 := tr ++ [EngineCall.sampler_sample, EngineCall.vocab_is_eog new_token_id]
    if eng.is_eog new_token_id then (generated_text, tr1)
    else
      let text1 := append_piece generated_text (eng.token_to_piece new_token_id)
      let tr2 := tr1 ++ [EngineCall.token_to_piece new_token_id, EngineCall.decode ctx]
      if eng.decode i < 0 then (text1, tr2)
      else generation_loop eng ctx fuel (i + 1) text1 tr2

/-- C memcpy of n bytes (or floats) from src over the start of dst. -/
def memcpy : List Nat → List Nat → Nat → List Nat
  | _ :: ds, c :: cs, n + 1 => c :: memcpy ds cs n
  | ds, _, _ => ds

/-- Result of a bridge call with an output buffer. -/
structure BufRet where
  ret : Int
  state : State
  out_buffer : Option (List Nat)
deriving DecidableEq, Repr

/-- The sampler chain built at lines 226-234. -/
def sampler_chain_calls : List EngineCall :=
  [EngineCall.sampler_chain_init,
   EngineCall.sampler_chain_add (SamplerStage.top_k 40),
   EngineCall.sampler_chain_add SamplerStage.top_p,
   EngineCall.sampler_chain_add SamplerStage.min_p,
   EngineCall.sampler_chain_add SamplerStage.temp,
   EngineCall.sampler_chain_add (SamplerStage.dist 4294967295)]

/-- Function llama_generate_text (lines 164-278).  prompt and out_buffer none are
null pointers; out_buffer is the content of the caller's buffer, bytes as Nat. -/
def llama_generate_text (s : State) (model_id : Int) (prompt : Option String)
    (out_buffer : Option (List Nat)) (out_buffer_size : Int) (eng : GenEngine) : BufRet :=
  match prompt, out_buffer with
  | some prompt_str, some buf =>
    if out_buffer_size ≤ 0 then ⟨LLAMA_BRIDGE_ERROR_INVALID_PARAM, s, out_buffer⟩
    else
      match map_find s.g_models model_id with
      | none => ⟨LLAMA_BRIDGE_ERROR_INVALID_MODEL_ID, s, out_buffer⟩
      | some model_ctx =>
        if model_ctx.is_embedding then ⟨LLAMA_BRIDGE_ERROR_INVALID_PARAM, s, out_buffer⟩
        else
          let ctx := model_ctx.ctx
          let s1 := s.call (EngineCall.model_get_vocab model_ctx.model)
          let s2 := s1.call (EngineCall.set_embeddings ctx false)
          let s3 := s2.call (EngineCall.memory_clear ctx)
          let s4 := s3.call (EngineCall.tokenize prompt_str 512)
          if eng.n_tokens < 0 then ⟨LLAMA_BRIDGE_ERROR_DECODE_FAILED, s4, out_buffer⟩
          else
            let s5 := s4.call (EngineCall.decode ctx)
            if eng.prime < 0 then ⟨LLAMA_BRIDGE_ERROR_DECODE_FAILED, s5, out_buffer⟩
            else
              let loop := generation_loop eng ctx max_gen_tokens 0 []
                (s5.trace ++ sampler_chain_calls)
              let generated_text := loop.1
              let s6 := { s5 with trace := loop.2 ++ [EngineCall.sampler_free] }
              let text_len := wrap_int32 generated_text.length
              if text_len ≥ out_buffer_size then
                ⟨LLAMA_BRIDGE_ERROR_BUFFER_TOO_SMALL, s6, out_buffer⟩
              else
                let copied := memcpy buf (generated_text ++ [0]) text_len.toNat
                ⟨text_len, s6, some (copied.set text_len.toNat 0)⟩
  | _, _ => ⟨LLAMA_BRIDGE_ERROR_INVALID_PARAM, s, out_buffer⟩

/-! ## Embedding pipeline -/

/-- Engine function llama_model_n_embd: the embedding width stored in the model
object.  The bridge never calls it on a null pointer of a registered entry
(llama_load_model registers non-null models only); the value at none is unused. -/
def llama_model_n_embd : Option llama_model → Int
  | some model => model.n_embd
  | none => 0

/-- Function llama_get_embedding_dim (lines 283-295). -/
def llama_get_embedding_dim (s : State) (model_id : Int) : Ret :=
  match map_find s.g_models model_id with
  | none => ⟨LLAMA_BRIDGE_ERROR_INVALID_MODEL_ID, s⟩
  | some model_ctx =>
    ⟨llama_model_n_embd model_ctx.model, s.call (EngineCall.model_n_embd model_ctx.model)⟩

/-- What the engine answers during one llama_embed_text call.
n_tokens: llama_tokenize; decode: llama_decode; pooling_is_none: whether
llama_pooling_type(ctx) is LLAMA_POOLING_TYPE_NONE; embeddings_ith and
embeddings_seq: the float arrays llama_get_embeddings_ith(ctx, -1) and
llama_get_embeddings_seq(ctx, 0) point to (none is a null pointer).
A float is represented by its 32-bit pattern. -/
structure EmbedEngine where
  n_tokens : Int
  decode : Int
  pooling_is_none : Bool
  embeddings_ith : Option (List Nat)
  embeddings_seq : Option (List Nat)
deriving DecidableEq, Repr

/-- Function llama_embed_text (lines 300-380).  text and out_buffer none are null
pointers; out_buffer is the content of the caller's float array. -/
def llama_embed_text (s : State) (model_id : Int) (text : Option String)
    (out_buffer : Option (List Nat)) (max_tokens : Int) (eng : EmbedEngine) : BufRet :=
  match text, out_buffer with
  | some text_str, some buf =>
    if max_tokens ≤ 0 then ⟨LLAMA_BRIDGE_ERROR_INVALID_PARAM, s, out_buffer⟩
    else
      match map_find s.g_models model_id with
      | none => ⟨LLAMA_BRIDGE_ERROR_INVALID_MODEL_ID, s, out_buffer⟩
      | some model_ctx =>
        if !model_ctx.is_embedding then ⟨LLAMA_BRIDGE_ERROR_INVALID_PARAM, s, out_buffer⟩
        else
          let ctx := model_ctx.ctx
          let model := model_ctx.model
          let s1 := s.call (EngineCall.model_get_vocab model)
          let s2 := s1.call (EngineCall.tokenize text_str max_tokens)
          if eng.n_tokens < 0 then ⟨LLAMA_BRIDGE_ERROR_EMBEDDING_FAILED, s2, out_buffer⟩
          else
            let s3 := s2.call (EngineCall.set_embeddings ctx true)
            let s4 := s3.call (EngineCall.memory_clear ctx)
            let s5 := s4.call (EngineCall.decode ctx)
            if eng.decode < 0 then ⟨LLAMA_BRIDGE_ERROR_EMBEDDING_FAILED, s5, out_buffer⟩
            else
              let s6 := s5.call EngineCall.pooling_type
              let s7 := if eng.pooling_is_none then s6.call EngineCall.get_embeddings_ith
                else s6.call EngineCall.get_embeddings_seq
              let embeddings := if eng.pooling_is_none then eng.embeddings_ith
                else eng.embeddings_seq
              match embeddings with
              | none => ⟨LLAMA_BRIDGE_ERROR_EMBEDDING_FAILED, s7, out_buffer⟩
              | some emb =>
                let n_embd := llama_model_n_embd model
                let s8 := s7.call (EngineCall.model_n_embd model)
                ⟨n_embd, s8, some (memcpy buf emb n_embd.toNat)⟩
  | _, _ => ⟨LLAMA_BRIDGE_ERROR_INVALID_PARAM, s, out_buffer⟩

/-! ## Sequences of bridge calls -/

/-- One call of the C surface, with the answers of the engine during it. -/
inductive Call where
  | load (model_path : Option String) (is_embedding : Int) (eng : LoadEngine)
  | unload (model_id : Int)
  | generate (model_id : Int) (prompt : Option String) (out_buffer : Option (List Nat))
      (out_buffer_size : Int) (eng : GenEngine)
  | get_embedding_dim (model_id : Int)
  | embed (model_id : Int) (text : Option String) (out_buffer : Option (List Nat))
      (max_tokens : Int) (eng : EmbedEngine)

/-- Execute one call: return value and new state. -/
def step (s : State) : Call → Ret
  | Call.load model_path is_embedding eng => llama_load_model s model_path is_embedding eng
  | Call.unload model_id => llama_unload_model s model_id
  | Call.generate model_id prompt out_buffer out_buffer_size eng =>
    let r := llama_generate_text s model_id prompt out_buffer out_buffer_size eng
    ⟨r.ret, r.state⟩
  | Call.get_embedding_dim model_id => llama_get_embedding_dim s model_id
  | Call.embed model_id text out_buffer max_tokens eng =>
    let r := llama_embed_text s model_id text out_buffer max_tokens eng
    ⟨r.ret, r.state⟩

/-- State after a sequence of calls. -/
def run (s : State) : List Call → State
  | [] => s
  | c :: cs => run (step s c).state cs

/-- Whether a call is a llama_load_model that reaches line 122: non-null path,
model loaded, context created. -/
def Call.load_succeeds : Call → Bool
  | Call.load (some _) _ eng => eng.model.isSome && eng.ctx.isSome
  | _ => false

/-- Number of successful loads in a sequence of calls. -/
def count_loads (cs : List Call) : Nat :=
  (cs.filter Call.load_succeeds).length

/-- The handles returned by the successful loads of a sequence, in call order. -/
def handles (s : State) : List Call → List Int
  | [] => []
  | c :: cs =>
    if c.load_succeeds then (step s c).ret :: handles (step s c).state cs
    else handles (step s c).state cs

/-! ## The text of a generation call -/

/-- The text llama_generate_text has accumulated when the loop ends. -/
def generated_text (eng : GenEngine) : List Nat :=
  (generation_loop eng none max_gen_tokens 0 [] []).1

/-- The text fragment of the token sampled at iteration i, read off the answer of
llama_token_to_piece alone: when the returned length token_len is positive, the
first token_len bytes of the 256-byte buffer the engine wrote the piece into (a
byte the engine did not write reads as 0); no byte otherwise. -/
def fragment (eng : GenEngine) (i : Nat) : List Nat :=
  if 0 < (eng.token_to_piece (eng.sample i)).1 then
    ((eng.token_to_piece (eng.sample i)).2 ++ List.replicate 256 0).take
      (min (eng.token_to_piece (eng.sample i)).1.toNat 256)
  else []

/-- Concatenation of the fragments of iterations i, i+1, ..., i+n-1. -/
def fragments (eng : GenEngine) : Nat → Nat → List Nat
  | _, 0 => []
  | i, n + 1 => fragment eng i ++ fragments eng (i + 1) n

/-! ## Concrete engine answers, states and call sequences used in the examples -/

/-- An engine answer for a load that succeeds: a model of width 384 and a context. -/
def engine_loads : LoadEngine :=
  { model := some { addr := 1, n_embd := 384 }, ctx := some { addr := 2 } }

/-- An engine answer for a load whose weights cannot be read. -/
def engine_no_model : LoadEngine := { model := none, ctx := none }

/-- An engine answer for a load whose context cannot be created. -/
def engine_no_ctx : LoadEngine :=
  { model := some { addr := 3, n_embd := 384 }, ctx := none }

/-- An engine answer for an embedding call on a model with mean pooling. -/
def engine_embeds : EmbedEngine :=
  { n_tokens := 3, decode := 0, pooling_is_none := false, embeddings_ith := none,
    embeddings_seq := some (List.replicate 384 7) }

/-- An engine answer for a generation call: tokens 0, 1, 2, ... of fragment "hi",
token 5 ends the generation. -/
def engine_generates : GenEngine :=
  { n_tokens := 3, prime := 0, sample := fun i => (i : Int),
    is_eog := fun t => decide (t = 5), token_to_piece := fun _ => (2, [104, 105]),
    decode := fun _ => 0 }

/-- An engine answer for a generation call whose decode fails at iteration 2. -/
def engine_decode_fails : GenEngine :=
  { n_tokens := 3, prime := 0, sample := fun i => (i : Int),
    is_eog := fun t => decide (t = 5), token_to_piece := fun _ => (2, [104, 105]),
    decode := fun i => if i = 2 then -1 else 0 }

/-- The state after one successful generation-mode load from the initial state. -/
def state_one_model : State :=
  (llama_load_model State.initial (some "a.gguf") 0 engine_loads).state

/-- The state after one successful embedding-mode load from the initial state. -/
def state_one_embedder : State :=
  (llama_load_model State.initial (some "embed.gguf") 1 engine_loads).state

/-- The state after a generation-mode load (handle 1) and an embedding-mode
load (handle 2) from the initial state. -/
def state_two_models : State :=
  (llama_load_model state_one_model (some "embed.gguf") 1 engine_loads).state

/-- The calls of n load / unload rounds: round j loads a model and unloads the
handle wrap_int32 (start + j), the one that load returns when the counter was
start before the first round. -/
def load_unload_rounds (start : Int) : Nat → List Call
  | 0 => []
  | n + 1 => load_unload_rounds start n ++
      [Call.load (some "a.gguf") 0 engine_loads, Call.unload (wrap_int32 (start + (n : Int)))]

/-- The calls of the overflow scenario: 2^31 - 1 rounds of loading a model and
unloading it again, then one more load. -/
def overflow_calls : List Call :=
  load_unload_rounds 1 2147483647 ++ [Call.load (some "a.gguf") 0 engine_loads]

/-- A short session: two loads with an unload and a failed load in between. -/
def session_calls : List Call :=
  [Call.load (some "a.gguf") 0 engine_loads, Call.unload 1,
   Call.load (some "missing.gguf") 0 engine_no_model, Call.load none 0 engine_loads,
   Call.load (some "embed.gguf") 1 engine_loads, Call.unload 9]

/-- The calls of the reissue scenario: 2^32 - 1 rounds of loading a model and
unloading it again, then one more load. -/
def reissue_calls : List Call :=
  load_unload_rounds 2 4294967295 ++ [Call.load (some "b.gguf") 1 engine_loads]

/-- Calls after an unload: a new load, a generation on it, a stray unload. -/
def later_calls : List Call :=
  [Call.load (some "b.gguf") 0 engine_loads,
   Call.generate 3 (some "Hello") (some (List.replicate 16 255)) 16 engine_generates,
   Call.unload 9, Call.get_embedding_dim 3]

/-! ## Lemmas on the registry map -/

theorem map_find_eq_none_iff (m : List (Int × ModelContext)) (k : Int) :
    map_find m k = none ↔ ∀ kv ∈ m, kv.1 ≠ k := by
  simp [map_find, List.find?_eq_none]

theorem map_find_erase_self (m : List (Int × ModelContext)) (k : Int) :
    map_find (map_erase m k) k = none := by
  rw [map_find_eq_none_iff]
  intro kv hkv
  simp [map_erase, List.mem_filter] at hkv
  exact hkv.2

theorem map_find_erase_ne (m : List (Int × ModelContext)) (k j : Int) (hne : j ≠ k) :
    map_find (map_erase m k) j = map_find m j := by
  induction m with
  | nil => rfl
  | cons kv m ih =>
    by_cases h1 : kv.1 = k
    · have h2 : kv.1 ≠ j := fun h => hne (h ▸ h1)
      have e1 : map_erase (kv :: m) k = map_erase m k := by simp [map_erase, h1]
      have e2 : map_find (kv :: m) j = map_find m j := by simp [map_find, h2]
      rw [e1, e2, ih]
    · have e1 : map_erase (kv :: m) k = kv :: map_erase m k := by simp [map_erase, h1]
      rw [e1]
      by_cases h2 : kv.1 = j
      · simp [map_find, h2]
      · have e2 : map_find (kv :: m) j = map_find m j := by simp [map_find, h2]
        have e3 : map_find (kv :: map_erase m k) j = map_find (map_erase m k) j := by
          simp [map_find, h2]
        rw [e2, e3, ih]

theorem map_find_assign_self (m : List (Int × ModelContext)) (k : Int) (mc : ModelContext) :
    map_find (map_assign m k mc) k = some mc := by
  simp [map_find, map_assign]

theorem map_find_assign_ne (m : List (Int × ModelContext)) (k j : Int) (mc : ModelContext)
    (hne : j ≠ k) : map_find (map_assign m k mc) j = map_find m j := by
  have h2 : k ≠ j := fun h => hne h.symm
  have e : map_find (map_assign m k mc) j = map_find (map_erase m k) j := by
    simp [map_find, map_assign, h2]
  rw [e, map_find_erase_ne m k j hne]

/-! ## C3: unloading an unknown handle -/

/-- C3: for every state and every handle that is not a key of the registry,
llama_unload_model returns InvalidModelId (-1) and has no side effect: the map,
the next-id counter, the backend flag and the trace of engine calls (so no
context or model release, no backend teardown) are what they were. -/
theorem unload_unknown_handle (s : State) (model_id : Int)
    (habsent : ∀ kv ∈ s.g_models, kv.1 ≠ model_id) :
    (llama_unload_model s model_id).ret = -1 ∧
    (llama_unload_model s model_id).state.g_models = s.g_models ∧
    (llama_unload_model s model_id).state.g_next_model_id = s.g_next_model_id ∧
    (llama_unload_model s model_id).state.backend = s.backend ∧
    (llama_unload_model s model_id).state.trace = s.trace := by
  have h := (map_find_eq_none_iff s.g_models model_id).2 habsent
  simp [llama_unload_model, h, LLAMA_BRIDGE_ERROR_INVALID_MODEL_ID]

/-- C3 at a concrete input: handle 2 in a registry holding handle 1 only. -/
theorem unload_unknown_handle_witness :
    (llama_unload_model state_one_model 2).ret = -1 ∧
    (llama_unload_model state_one_model 2).state.g_models = state_one_model.g_models ∧
    (llama_unload_model state_one_model 2).state.g_next_model_id
      = state_one_model.g_next_model_id ∧
    (llama_unload_model state_one_model 2).state.backend = state_one_model.backend ∧
    (llama_unload_model state_one_model 2).state.trace = state_one_model.trace :=
  unload_unknown_handle state_one_model 2 (by decide)

/-! ## C7: validation of the path in llama_load_model -/

/-- C7 fails for the empty string: on the initial state, with an engine that
cannot load it, llama_load_model "" returns ModelLoadFailed (-5), not
InvalidParam (-4), after initialising the backend and calling the loader. -/
theorem load_empty_path_reaches_engine :
    (llama_load_model State.initial (some "") 0 engine_no_model).ret = -5 ∧
    (llama_load_model State.initial (some "") 0 engine_no_model).ret ≠ -4 ∧
    (llama_load_model State.initial (some "") 0 engine_no_model).state.trace =
      [EngineCall.log_set, EngineCall.backend_init, EngineCall.model_default_params,
       EngineCall.model_load_from_file "", EngineCall.backend_free] := by
  decide

/-- C7 amended: llama_load_model validates that the path is non-null.  A null
path returns InvalidParam (-4) and leaves the whole state (registry, counter,
backend, trace) as it was, for every is_embedding.  Every non-null path, the
empty string included, passes: the backend is initialised and the path is
handed to the model loader, and the call returns ModelLoadFailed (-5) when the
loader returns null. -/
theorem load_validates_non_null_path (s : State) (is_embedding : Int) (eng : LoadEngine)
    (path : String) :
    llama_load_model s none is_embedding eng = ⟨-4, s⟩ ∧
    (∃ rest, (llama_load_model s (some path) is_embedding eng).state.trace =
      s.trace ++ [EngineCall.log_set, EngineCall.backend_init,
        EngineCall.model_default_params, EngineCall.model_load_from_file path] ++ rest) ∧
    (llama_load_model s (some path) is_embedding ⟨none, eng.ctx⟩).ret = -5 := by
  refine ⟨rfl, ?_, rfl⟩
  unfold llama_load_model
  cases hm : eng.model with
  | none => exact ⟨[EngineCall.backend_free], by simp [llama_backend_free, llama_backend_init, State.call]⟩
  | some model =>
    cases hc : eng.ctx with
    | none =>
      exact ⟨_, by simp [llama_backend_free, llama_backend_init, State.call]; rfl⟩
    | some ctx =>
      exact ⟨_, by simp [llama_backend_init, State.call]; rfl⟩

/-! ## C10: lifetime of the shared backend -/

/-- C10 on the code: after one successful load (handle 1 registered, backend
initialised), a second llama_load_model whose weight load fails returns -5 and
runs llama_backend_free (line 69) although handle 1 is still registered; the
same happens when context creation fails (line 106). -/
theorem failed_load_frees_backend_in_use :
    state_one_model.backend = true ∧
    map_find state_one_model.g_models 1 ≠ none ∧
    (llama_load_model state_one_model (some "missing.gguf") 0 engine_no_model).ret = -5 ∧
    map_find (llama_load_model state_one_model (some "missing.gguf") 0
      engine_no_model).state.g_models 1 ≠ none ∧
    (llama_load_model state_one_model (some "missing.gguf") 0
      engine_no_model).state.backend = false ∧
    (llama_load_model state_one_model (some "big.gguf") 0 engine_no_ctx).ret = -5 ∧
    map_find (llama_load_model state_one_model (some "big.gguf") 0
      engine_no_ctx).state.g_models 1 ≠ none ∧
    (llama_load_model state_one_model (some "big.gguf") 0 engine_no_ctx).state.backend
      = false := by
  decide

/-! ## C8: the count returned by llama_embed_text -/

/-- C8: whenever llama_embed_text returns a non-negative value, the handle is
registered in embedding mode and the value returned is the embedding width of
its model, which is what llama_get_embedding_dim returns for the same handle,
before the call as well as after it; text, max_tokens, the pooling mode and
every other answer of the engine are arbitrary. -/
theorem embed_count_is_embedding_dim (s : State) (model_id : Int) (text : Option String)
    (out_buffer : Option (List Nat)) (max_tokens : Int) (eng : EmbedEngine)
    (hok : 0 ≤ (llama_embed_text s model_id text out_buffer max_tokens eng).ret) :
    ∃ mc, map_find s.g_models model_id = some mc ∧ mc.is_embedding = true ∧
      (llama_embed_text s model_id text out_buffer max_tokens eng).ret
        = llama_model_n_embd mc.model ∧
      (llama_get_embedding_dim s model_id).ret
        = (llama_embed_text s model_id text out_buffer max_tokens eng).ret ∧
      (llama_get_embedding_dim
          (llama_embed_text s model_id text out_buffer max_tokens eng).state model_id).ret
        = (llama_embed_text s model_id text out_buffer max_tokens eng).ret := by
  cases text with
  | none => simp [llama_embed_text, LLAMA_BRIDGE_ERROR_INVALID_PARAM] at hok
  | some text_str =>
    cases out_buffer with
    | none => simp [llama_embed_text, LLAMA_BRIDGE_ERROR_INVALID_PARAM] at hok
    | some buf =>
      by_cases hmt : max_tokens ≤ 0
      · simp [llama_embed_text, hmt, LLAMA_BRIDGE_ERROR_INVALID_PARAM] at hok
      · cases hfind : map_find s.g_models model_id with
        | none =>
          simp [llama_embed_text, hmt, hfind, LLAMA_BRIDGE_ERROR_INVALID_MODEL_ID] at hok
        | some mc =>
          cases hemb : mc.is_embedding with
          | false =>
            simp [llama_embed_text, hmt, hfind, hemb, LLAMA_BRIDGE_ERROR_INVALID_PARAM] at hok
          | true =>
            by_cases hn : eng.n_tokens < 0
            · simp [llama_embed_text, hmt, hfind, hemb, hn,
                LLAMA_BRIDGE_ERROR_EMBEDDING_FAILED] at hok
            · by_cases hd : eng.decode < 0
              · simp [llama_embed_text, hmt, hfind, hemb, hn, hd,
                  LLAMA_BRIDGE_ERROR_EMBEDDING_FAILED] at hok
              · cases hp : eng.pooling_is_none with
                | true =>
                  cases he : eng.embeddings_ith with
                  | none =>
                    simp [llama_embed_text, hmt, hfind, hemb, hn, hd, hp, he,
                      LLAMA_BRIDGE_ERROR_EMBEDDING_FAILED] at hok
                  | some emb =>
                    refine ⟨mc, rfl, hemb, ?_, ?_, ?_⟩ <;>
                      simp [llama_embed_text, llama_get_embedding_dim, State.call, hmt, hfind,
                        hemb, hn, hd, hp, he]
                | false =>
                  cases he : eng.embeddings_seq with
                  | none =>
                    simp [llama_embed_text, hmt, hfind, hemb, hn, hd, hp, he,
                      LLAMA_BRIDGE_ERROR_EMBEDDING_FAILED] at hok
                  | some emb =>
                    refine ⟨mc, rfl, hemb, ?_, ?_, ?_⟩ <;>
                      simp [llama_embed_text, llama_get_embedding_dim, State.call, hmt, hfind,
                        hemb, hn, hd, hp, he]

/-- C8 at a concrete input: embedding "cat" on handle 1 of width 384. -/
theorem embed_count_is_embedding_dim_witness :
    ∃ mc, map_find state_one_embedder.g_models 1 = some mc ∧ mc.is_embedding = true ∧
      (llama_embed_text state_one_embedder 1 (some "cat") (some (List.replicate 384 0)) 64
        engine_embeds).ret = llama_model_n_embd mc.model ∧
      (llama_get_embedding_dim state_one_embedder 1).ret
        = (llama_embed_text state_one_embedder 1 (some "cat") (some (List.replicate 384 0)) 64
            engine_embeds).ret ∧
      (llama_get_embedding_dim
          (llama_embed_text state_one_embedder 1 (some "cat") (some (List.replicate 384 0)) 64
            engine_embeds).state 1).ret
        = (llama_embed_text state_one_embedder 1 (some "cat") (some (List.replicate 384 0)) 64
            engine_embeds).ret :=
  embed_count_is_embedding_dim state_one_embedder 1 (some "cat")
    (some (List.replicate 384 0)) 64 engine_embeds (by decide)

/-! ## C4: generation and embedding exclude each other -/

/-- C4: in every state, llama_generate_text on a handle whose entry is in
embedding mode, and llama_embed_text on a handle whose entry is in generation
mode (non-null strings and buffers, positive capacity or max_tokens), return
InvalidParam (-4) with the state unchanged (no call into the engine is added to
the trace) and the output buffer as the caller passed it.  The mode of an entry
is the one of its load: a successful llama_load_model registers, under the
handle it returns, an entry in embedding mode exactly when is_embedding != 0. -/
theorem generation_embedding_exclusive
    (se : State) (he : Int) (mce : ModelContext)
    (hfinde : map_find se.g_models he = some mce) (hmodee : mce.is_embedding = true)
    (sg : State) (hg : Int) (mcg : ModelContext)
    (hfindg : map_find sg.g_models hg = some mcg) (hmodeg : mcg.is_embedding = false)
    (prompt text : String) (out_text out_floats : List Nat) (out_buffer_size max_tokens : Int)
    (hsize : 0 < out_buffer_size) (hmax : 0 < max_tokens)
    (geng : GenEngine) (eeng : EmbedEngine)
    (s0 : State) (path : String) (is_embedding : Int) (model : llama_model)
    (ctx : llama_context) :
    llama_generate_text se he (some prompt) (some out_text) out_buffer_size geng
        = ⟨-4, se, some out_text⟩ ∧
    llama_embed_text sg hg (some text) (some out_floats) max_tokens eeng
        = ⟨-4, sg, some out_floats⟩ ∧
    map_find (llama_load_model s0 (some path) is_embedding ⟨some model, some ctx⟩).state.g_models
        (llama_load_model s0 (some path) is_embedding ⟨some model, some ctx⟩).ret
      = some ⟨some model, some ctx, decide (is_embedding ≠ 0)⟩ := by
  have h1 : ¬ out_buffer_size ≤ 0 := not_le.mpr hsize
  have h2 : ¬ max_tokens ≤ 0 := not_le.mpr hmax
  refine ⟨?_, ?_, ?_⟩
  · simp [llama_generate_text, h1, hfinde, hmodee, LLAMA_BRIDGE_ERROR_INVALID_PARAM]
  · simp [llama_embed_text, h2, hfindg, hmodeg, LLAMA_BRIDGE_ERROR_INVALID_PARAM]
  · simp only [llama_load_model]
    exact map_find_assign_self _ _ _

/-- C4 at a concrete input: handle 1 is a generation model, handle 2 an embedding
model; generating on 2 and embedding on 1 are both refused. -/
theorem generation_embedding_exclusive_witness :
    llama_generate_text state_two_models 2 (some "Hello") (some (List.replicate 8 255)) 8
        engine_generates = ⟨-4, state_two_models, some (List.replicate 8 255)⟩ ∧
    llama_embed_text state_two_models 1 (some "cat") (some (List.replicate 4 9)) 64
        engine_embeds = ⟨-4, state_two_models, some (List.replicate 4 9)⟩ ∧
    map_find (llama_load_model State.initial (some "embed.gguf") 1
        ⟨some ⟨1, 384⟩, some ⟨2⟩⟩).state.g_models
        (llama_load_model State.initial (some "embed.gguf") 1 ⟨some ⟨1, 384⟩, some ⟨2⟩⟩).ret
      = some ⟨some ⟨1, 384⟩, some ⟨2⟩, decide ((1 : Int) ≠ 0)⟩ :=
  generation_embedding_exclusive
    state_two_models 2 ⟨some ⟨1, 384⟩, some ⟨2⟩, true⟩ (by decide) rfl
    state_two_models 1 ⟨some ⟨1, 384⟩, some ⟨2⟩, false⟩ (by decide) rfl
    "Hello" "cat" (List.replicate 8 255) (List.replicate 4 9) 8 64 (by decide) (by decide)
    engine_generates engine_embeds State.initial "embed.gguf" 1 ⟨1, 384⟩ ⟨2⟩

/-! ## Lemmas on the generation loop and on memcpy -/

theorem append_piece_eq (t : List Nat) (p : Int × List Nat) :
    append_piece t p = t ++ append_piece [] p := by
  unfold append_piece
  split <;> simp

/-- What lines 250-253 append at iteration i is the fragment of the token sampled there. -/
theorem append_piece_nil_eq_fragment (eng : GenEngine) (i : Nat) :
    append_piece [] (eng.token_to_piece (eng.sample i)) = fragment eng i := by
  unfold append_piece fragment token_text
  by_cases h : 0 < (eng.token_to_piece (eng.sample i)).1
  · simp only [gt_iff_lt, h, if_true, List.nil_append, List.take_take]
  · simp only [gt_iff_lt, h, if_false]

/-- For an answer within the contract of llama_token_to_piece (a positive length
is the number of bytes written, at most the 256 offered), the fragment is the
first token_len bytes of the piece. -/
theorem fragment_eq_take (eng : GenEngine) (i : Nat)
    (hpos : 0 < (eng.token_to_piece (eng.sample i)).1)
    (hlen : (eng.token_to_piece (eng.sample i)).1.toNat
      ≤ (eng.token_to_piece (eng.sample i)).2.length)
    (hmax : (eng.token_to_piece (eng.sample i)).2.length ≤ 256) :
    fragment eng i
      = (eng.token_to_piece (eng.sample i)).2.take (eng.token_to_piece (eng.sample i)).1.toNat := by
  unfold fragment
  simp only [hpos, if_true]
  have hmin : min (eng.token_to_piece (eng.sample i)).1.toNat 256
      = (eng.token_to_piece (eng.sample i)).1.toNat := by omega
  rw [hmin, List.take_append_of_le_length hlen]

theorem length_token_text (bytes : List Nat) : (token_text bytes).length = 256 := by
  simp only [token_text, List.length_take, List.length_append, List.length_replicate]
  omega

theorem length_append_piece_nil_le (p : Int × List Nat) :
    (append_piece [] p).length ≤ 256 := by
  unfold append_piece
  split
  · simp only [List.nil_append, List.length_take, length_token_text]
    omega
  · simp

theorem loop_text_indep (eng : GenEngine) (ctx1 ctx2 : Option llama_context) (fuel : Nat) :
    ∀ (i : Nat) (t : List Nat) (tr1 tr2 : List EngineCall),
      (generation_loop eng ctx1 fuel i t tr1).1 = (generation_loop eng ctx2 fuel i t tr2).1 := by
  induction fuel with
  | zero => intro i t tr1 tr2; rfl
  | succ fuel ih =>
    intro i t tr1 tr2
    simp only [generation_loop]
    cases h1 : eng.is_eog (eng.sample i) with
    | true => simp
    | false =>
      by_cases h2 : eng.decode i < 0
      · simp [h2]
      · simp only [h2, if_false, Bool.false_eq_true]
        exact ih _ _ _ _

theorem loop_text_length_le (eng : GenEngine) (ctx : Option llama_context) (fuel : Nat) :
    ∀ (i : Nat) (t : List Nat) (tr : List EngineCall),
      (generation_loop eng ctx fuel i t tr).1.length ≤ t.length + 256 * fuel := by
  induction fuel with
  | zero => intro i t tr; simp [generation_loop]
  | succ fuel ih =>
    intro i t tr
    simp only [generation_loop]
    have hp := length_append_piece_nil_le (eng.token_to_piece (eng.sample i))
    have hq : (append_piece t (eng.token_to_piece (eng.sample i))).length ≤ t.length + 256 := by
      rw [append_piece_eq, List.length_append]; omega
    cases h1 : eng.is_eog (eng.sample i) with
    | true => simp only [if_true]; omega
    | false =>
      by_cases h2 : eng.decode i < 0
      · simp only [h2, if_true, if_false, Bool.false_eq_true]; omega
      · simp only [h2, if_false, Bool.false_eq_true]
        have := ih (i + 1) (append_piece t (eng.token_to_piece (eng.sample i)))
          (tr ++ [EngineCall.sampler_sample, EngineCall.vocab_is_eog (eng.sample i)] ++
            [EngineCall.token_to_piece (eng.sample i), EngineCall.decode ctx])
        omega

theorem length_generated_text_le (eng : GenEngine) : (generated_text eng).length ≤ 32768 := by
  have := loop_text_length_le eng none max_gen_tokens 0 [] []
  simpa [generated_text, max_gen_tokens] using this

theorem wrap_int32_of_small (n : Nat) (h : n ≤ 32768) : wrap_int32 (n : Int) = n := by
  unfold wrap_int32
  omega

theorem length_memcpy (dst : List Nat) : ∀ (src : List Nat) (n : Nat),
    (memcpy dst src n).length = dst.length := by
  induction dst with
  | nil => intro src n; simp [memcpy]
  | cons x dst ih =>
    intro src n
    cases src with
    | nil => simp [memcpy]
    | cons y src =>
      cases n with
      | zero => simp [memcpy]
      | succ n => simp [memcpy, ih]

theorem getElem?_memcpy_lt (dst : List Nat) : ∀ (src : List Nat) (n i : Nat),
    i < n → i < src.length → i < dst.length → (memcpy dst src n)[i]? = src[i]? := by
  induction dst with
  | nil => intro src n i _ _ h; simp at h
  | cons x dst ih =>
    intro src n i hn hc hd
    cases src with
    | nil => simp at hc
    | cons y src =>
      cases n with
      | zero => omega
      | succ n =>
        cases i with
        | zero => simp [memcpy]
        | succ i =>
          simp only [memcpy, List.getElem?_cons_succ]
          exact ih src n i (by omega) (by simpa using hc) (by simpa using hd)

theorem getElem?_memcpy_ge (dst : List Nat) : ∀ (src : List Nat) (n i : Nat),
    n ≤ i → (memcpy dst src n)[i]? = dst[i]? := by
  induction dst with
  | nil => intro src n i _; simp [memcpy]
  | cons x dst ih =>
    intro src n i hn
    cases src with
    | nil => simp [memcpy]
    | cons y src =>
      cases n with
      | zero => simp [memcpy]
      | succ n =>
        cases i with
        | zero => omega
        | succ i =>
          simp only [memcpy, List.getElem?_cons_succ]
          exact ih src n i (by omega)

/-- The value and the buffer llama_generate_text returns once validation,
tokenization and priming have passed (lines 267-277). -/
theorem generate_after_loop (s : State) (model_id : Int) (mc : ModelContext)
    (hfind : map_find s.g_models model_id = some mc) (hmode : mc.is_embedding = false)
    (prompt : String) (buf : List Nat) (out_buffer_size : Int) (hsize : 0 < out_buffer_size)
    (eng : GenEngine) (htok : 0 ≤ eng.n_tokens) (hprime : 0 ≤ eng.prime) :
    (llama_generate_text s model_id (some prompt) (some buf) out_buffer_size eng).ret
      = (if out_buffer_size ≤ ((generated_text eng).length : Int) then -3
         else ((generated_text eng).length : Int)) ∧
    (llama_generate_text s model_id (some prompt) (some buf) out_buffer_size eng).out_buffer
      = (if out_buffer_size ≤ ((generated_text eng).length : Int) then some buf
         else some ((memcpy buf (generated_text eng ++ [0]) (generated_text eng).length).set
            (generated_text eng).length 0)) := by
  have h1 : ¬ out_buffer_size ≤ 0 := not_le.mpr hsize
  have h2 : ¬ eng.n_tokens < 0 := not_lt.mpr htok
  have h3 : ¬ eng.prime < 0 := not_lt.mpr hprime
  have hloop : ∀ tr, (generation_loop eng mc.ctx max_gen_tokens 0 [] tr).1 = generated_text eng :=
    fun tr => loop_text_indep eng mc.ctx none max_gen_tokens 0 [] tr []
  have hw : wrap_int32 ((generated_text eng).length : Int) = (generated_text eng).length :=
    wrap_int32_of_small _ (length_generated_text_le eng)
  simp only [llama_generate_text, h1, hfind, hmode, h2, h3, if_false, hloop, hw,
    Bool.false_eq_true, ge_iff_le, Int.toNat_ofNat]
  constructor <;> split <;> simp_all [LLAMA_BRIDGE_ERROR_BUFFER_TOO_SMALL]

/-- A non-negative return value of llama_generate_text comes from line 277 only:
every check before the loop has passed. -/
theorem generate_nonneg_passed (s : State) (model_id : Int) (prompt : Option String)
    (buf : List Nat) (out_buffer_size : Int) (eng : GenEngine)
    (hret : 0 ≤ (llama_generate_text s model_id prompt (some buf) out_buffer_size eng).ret) :
    ∃ prompt_str mc, prompt = some prompt_str ∧ map_find s.g_models model_id = some mc ∧
      mc.is_embedding = false ∧ 0 < out_buffer_size ∧ 0 ≤ eng.n_tokens ∧ 0 ≤ eng.prime := by
  cases prompt with
  | none => simp [llama_generate_text, LLAMA_BRIDGE_ERROR_INVALID_PARAM] at hret
  | some prompt_str =>
    by_cases hsz : out_buffer_size ≤ 0
    · simp [llama_generate_text, hsz, LLAMA_BRIDGE_ERROR_INVALID_PARAM] at hret
    · cases hfind : map_find s.g_models model_id with
      | none =>
        simp [llama_generate_text, hsz, hfind, LLAMA_BRIDGE_ERROR_INVALID_MODEL_ID] at hret
      | some mc =>
        cases hmode : mc.is_embedding with
        | true =>
          simp [llama_generate_text, hsz, hfind, hmode, LLAMA_BRIDGE_ERROR_INVALID_PARAM] at hret
        | false =>
          by_cases hn : eng.n_tokens < 0
          · simp [llama_generate_text, hsz, hfind, hmode, hn,
              LLAMA_BRIDGE_ERROR_DECODE_FAILED] at hret
          · by_cases hp : eng.prime < 0
            · simp [llama_generate_text, hsz, hfind, hmode, hn, hp,
                LLAMA_BRIDGE_ERROR_DECODE_FAILED] at hret
            · exact ⟨prompt_str, mc, rfl, rfl, hmode, not_le.mp hsz, not_lt.mp hn, not_lt.mp hp⟩

/-- Content of the buffer after lines 274-275: the text, a null byte, then the
bytes the caller had there. -/
theorem copied_buffer (buf text : List Nat) (hlen : text.length < buf.length) :
    ((memcpy buf (text ++ [0]) text.length).set text.length 0).length = buf.length ∧
    (∀ i, i < text.length →
      ((memcpy buf (text ++ [0]) text.length).set text.length 0)[i]? = text[i]?) ∧
    ((memcpy buf (text ++ [0]) text.length).set text.length 0)[text.length]? = some 0 ∧
    (∀ i, text.length < i →
      ((memcpy buf (text ++ [0]) text.length).set text.length 0)[i]? = buf[i]?) := by
  refine ⟨by simp [length_memcpy], ?_, ?_, ?_⟩
  · intro i hi
    rw [List.getElem?_set_ne (by omega)]
    rw [getElem?_memcpy_lt buf (text ++ [0]) text.length i hi (by simp; omega) (by omega)]
    exact List.getElem?_append_left hi
  · rw [List.getElem?_set_self]
    simp [length_memcpy, hlen]
  · intro i hi
    rw [List.getElem?_set_ne (by omega)]
    exact getElem?_memcpy_ge buf (text ++ [0]) text.length i (by omega)

/-- The loop when the single-token decode first fails at iteration k and no
end-of-generation token is sampled up to k: the text is extended by the
fragments of the iterations from i to k. -/
theorem loop_stops_at_decode_failure (eng : GenEngine) (ctx : Option llama_context) (k : Nat)
    (hfail : eng.decode k < 0) (fuel : Nat) :
    ∀ (i : Nat) (t : List Nat) (tr : List EngineCall), i ≤ k → k < i + fuel →
      (∀ j, i ≤ j → j ≤ k → eng.is_eog (eng.sample j) = false) →
      (∀ j, i ≤ j → j < k → 0 ≤ eng.decode j) →
      (generation_loop eng ctx fuel i t tr).1 = t ++ fragments eng i (k + 1 - i) := by
  induction fuel with
  | zero => intro i t tr hik hk; omega
  | succ fuel ih =>
    intro i t tr hik hk heog hdec
    simp only [generation_loop]
    have h1 : eng.is_eog (eng.sample i) = false := heog i (le_refl i) hik
    have hfr : k + 1 - i = (k - i) + 1 := by omega
    rw [hfr]
    simp only [fragments, h1, Bool.false_eq_true, if_false]
    by_cases hki : i = k
    · subst hki
      simp only [hfail, if_true, Nat.sub_self, fragments, List.append_nil]
      rw [append_piece_eq, append_piece_nil_eq_fragment]
    · have h2 : ¬ eng.decode i < 0 := not_lt.mpr (hdec i (le_refl i) (by omega))
      simp only [h2, if_false]
      rw [ih (i + 1) _ _ (by omega) (by omega)
        (fun j h1 h2 => heog j (by omega) h2) (fun j h1 h2 => hdec j (by omega) h2)]
      have : k + 1 - (i + 1) = k - i := by omega
      rw [this, append_piece_eq, List.append_assoc, append_piece_nil_eq_fragment]

/-! ## C5: BufferTooSmall -/

/-- C5: for every llama_generate_text call that passes validation (registered
generation-mode handle, non-null prompt and buffer, positive capacity),
tokenization and priming, with generated_text the text the loop accumulated:
the call returns BufferTooSmall (-3) exactly when the byte length of the text
is at least out_buffer_size, and in that case the buffer handed back is the
buffer the caller passed, byte for byte. -/
theorem buffer_too_small_iff (s : State) (model_id : Int) (mc : ModelContext)
    (hfind : map_find s.g_models model_id = some mc) (hmode : mc.is_embedding = false)
    (prompt : String) (buf : List Nat) (out_buffer_size : Int) (hsize : 0 < out_buffer_size)
    (eng : GenEngine) (htok : 0 ≤ eng.n_tokens) (hprime : 0 ≤ eng.prime) :
    ((llama_generate_text s model_id (some prompt) (some buf) out_buffer_size eng).ret = -3
      ↔ out_buffer_size ≤ ((generated_text eng).length : Int)) ∧
    ((llama_generate_text s model_id (some prompt) (some buf) out_buffer_size eng).ret = -3
      → (llama_generate_text s model_id (some prompt) (some buf) out_buffer_size eng).out_buffer
          = some buf) := by
  obtain ⟨hr, hb⟩ := generate_after_loop s model_id mc hfind hmode prompt buf out_buffer_size
    hsize eng htok hprime
  rw [hr, hb]
  by_cases hc : out_buffer_size ≤ ((generated_text eng).length : Int)
  · simp [hc]
  · simp only [hc, if_false, iff_false]
    constructor
    · omega
    · intro h; omega

/-- C5 at a concrete input: ten bytes of text and a capacity of four; the
sentinel bytes 255 survive. -/
theorem buffer_too_small_iff_witness :
    ((llama_generate_text state_one_model 1 (some "Hello") (some [255, 255, 255, 255]) 4
        engine_generates).ret = -3
      ↔ (4 : Int) ≤ ((generated_text engine_generates).length : Int)) ∧
    ((llama_generate_text state_one_model 1 (some "Hello") (some [255, 255, 255, 255]) 4
        engine_generates).ret = -3
      → (llama_generate_text state_one_model 1 (some "Hello") (some [255, 255, 255, 255]) 4
          engine_generates).out_buffer = some [255, 255, 255, 255]) :=
  buffer_too_small_iff state_one_model 1 ⟨some ⟨1, 384⟩, some ⟨2⟩, false⟩ (by decide) rfl
    "Hello" [255, 255, 255, 255] 4 (by decide) engine_generates (by decide) (by decide)

/-! ## C6: the buffer on success -/

/-- C6: for every llama_generate_text call on a buffer of at least
out_buffer_size bytes that returns a non-negative value n: n < out_buffer_size,
n is the byte length of the accumulated text, the buffer keeps its length,
bytes 0..n-1 are the text, byte n is 0 and every byte past n is unchanged. -/
theorem generate_success_buffer (s : State) (model_id : Int) (prompt : Option String)
    (buf : List Nat) (out_buffer_size : Int) (eng : GenEngine)
    (hret : 0 ≤ (llama_generate_text s model_id prompt (some buf) out_buffer_size eng).ret)
    (hbuf : out_buffer_size ≤ (buf.length : Int)) :
    (llama_generate_text s model_id prompt (some buf) out_buffer_size eng).ret
      < out_buffer_size ∧
    (llama_generate_text s model_id prompt (some buf) out_buffer_size eng).ret
      = ((generated_text eng).length : Int) ∧
    ∃ out, (llama_generate_text s model_id prompt (some buf) out_buffer_size eng).out_buffer
        = some out ∧
      out.length = buf.length ∧
      (∀ i, i < (generated_text eng).length → out[i]? = (generated_text eng)[i]?) ∧
      out[(generated_text eng).length]? = some 0 ∧
      (∀ i, (generated_text eng).length < i → out[i]? = buf[i]?) := by
  obtain ⟨prompt_str, mc, hp, hfind, hmode, hsize, htok, hprime⟩ :=
    generate_nonneg_passed s model_id prompt buf out_buffer_size eng hret
  subst hp
  obtain ⟨hr, hb⟩ := generate_after_loop s model_id mc hfind hmode prompt_str buf
    out_buffer_size hsize eng htok hprime
  rw [hr] at hret
  rw [hr, hb]
  by_cases hc : out_buffer_size ≤ ((generated_text eng).length : Int)
  · simp [hc] at hret
  · simp only [hc, if_false]
    have hlen : (generated_text eng).length < buf.length := by omega
    exact ⟨by omega, trivial, _, rfl, copied_buffer buf (generated_text eng) hlen⟩

/-- C6 at a concrete input: ten bytes of text in a buffer of sixteen. -/
theorem generate_success_buffer_witness :
    (llama_generate_text state_one_model 1 (some "Hello") (some (List.replicate 16 255)) 16
        engine_generates).ret < 16 ∧
    (llama_generate_text state_one_model 1 (some "Hello") (some (List.replicate 16 255)) 16
        engine_generates).ret = ((generated_text engine_generates).length : Int) ∧
    ∃ out, (llama_generate_text state_one_model 1 (some "Hello")
        (some (List.replicate 16 255)) 16 engine_generates).out_buffer = some out ∧
      out.length = (List.replicate 16 255).length ∧
      (∀ i, i < (generated_text engine_generates).length →
        out[i]? = (generated_text engine_generates)[i]?) ∧
      out[(generated_text engine_generates).length]? = some 0 ∧
      (∀ i, (generated_text engine_generates).length < i →
        out[i]? = (List.replicate 16 255)[i]?) :=
  generate_success_buffer state_one_model 1 (some "Hello") (List.replicate 16 255) 16
    engine_generates (by decide) (by decide)

/-! ## C9: best-effort truncation -/

/-- C9: for every llama_generate_text call that passes validation, tokenization
and priming, in which no end-of-generation token is sampled at iterations
0..k and the single-token decode succeeds at iterations below k and fails at
iteration k < 128: the accumulated text is the concatenation of the fragments
of the tokens sampled at iterations 0..k (the one whose decode failed
included); the call never returns DecodeFailed (-6); and when the length of
that text is below out_buffer_size (the size of a buffer the caller really
has), the call returns that length and the buffer holds the text followed by a
null byte. -/
theorem decode_failure_truncates (s : State) (model_id : Int) (mc : ModelContext)
    (hfind : map_find s.g_models model_id = some mc) (hmode : mc.is_embedding = false)
    (prompt : String) (buf : List Nat) (out_buffer_size : Int) (hsize : 0 < out_buffer_size)
    (hbuf : out_buffer_size ≤ (buf.length : Int))
    (eng : GenEngine) (htok : 0 ≤ eng.n_tokens) (hprime : 0 ≤ eng.prime)
    (k : Nat) (hk : k < 128)
    (hno_eog : ∀ i, i ≤ k → eng.is_eog (eng.sample i) = false)
    (hdecoded : ∀ i, i < k → 0 ≤ eng.decode i) (hfail : eng.decode k < 0) :
    generated_text eng = fragments eng 0 (k + 1) ∧
    (llama_generate_text s model_id (some prompt) (some buf) out_buffer_size eng).ret ≠ -6 ∧
    (((fragments eng 0 (k + 1)).length : Int) < out_buffer_size →
      (llama_generate_text s model_id (some prompt) (some buf) out_buffer_size eng).ret
        = ((fragments eng 0 (k + 1)).length : Int) ∧
      ∃ out, (llama_generate_text s model_id (some prompt) (some buf) out_buffer_size
          eng).out_buffer = some out ∧
        (∀ i, i < (fragments eng 0 (k + 1)).length → out[i]? = (fragments eng 0 (k + 1))[i]?) ∧
        out[(fragments eng 0 (k + 1)).length]? = some 0) := by
  have htext : generated_text eng = fragments eng 0 (k + 1) := by
    have := loop_stops_at_decode_failure eng none k hfail max_gen_tokens 0 [] []
      (Nat.zero_le k) (by simp [max_gen_tokens]; omega)
      (fun j _ h => hno_eog j h) (fun j _ h => hdecoded j h)
    simpa [generated_text] using this
  obtain ⟨hr, hb⟩ := generate_after_loop s model_id mc hfind hmode prompt buf out_buffer_size
    hsize eng htok hprime
  rw [htext] at hr hb
  refine ⟨htext, ?_, ?_⟩
  · rw [hr]; split <;> omega
  · intro hlt
    have hc : ¬ out_buffer_size ≤ ((fragments eng 0 (k + 1)).length : Int) := not_le.mpr hlt
    rw [hr, hb]
    simp only [hc, if_false]
    have hlen : (fragments eng 0 (k + 1)).length < buf.length := by omega
    obtain ⟨_, h1, h2, _⟩ := copied_buffer buf (fragments eng 0 (k + 1)) hlen
    exact ⟨trivial, _, rfl, h1, h2⟩

/-- C9 at a concrete input: the decode fails at iteration 2 and the three
fragments "hi" sampled up to there come back. -/
theorem decode_failure_truncates_witness :
    fragments engine_decode_fails 0 (2 + 1) = [104, 105, 104, 105, 104, 105] ∧
    generated_text engine_decode_fails = fragments engine_decode_fails 0 (2 + 1) ∧
    (llama_generate_text state_one_model 1 (some "Hello") (some (List.replicate 16 255)) 16
      engine_decode_fails).ret ≠ -6 ∧
    (((fragments engine_decode_fails 0 (2 + 1)).length : Int) < 16 →
      (llama_generate_text state_one_model 1 (some "Hello") (some (List.replicate 16 255)) 16
        engine_decode_fails).ret = ((fragments engine_decode_fails 0 (2 + 1)).length : Int) ∧
      ∃ out, (llama_generate_text state_one_model 1 (some "Hello")
          (some (List.replicate 16 255)) 16 engine_decode_fails).out_buffer = some out ∧
        (∀ i, i < (fragments engine_decode_fails 0 (2 + 1)).length →
          out[i]? = (fragments engine_decode_fails 0 (2 + 1))[i]?) ∧
        out[(fragments engine_decode_fails 0 (2 + 1)).length]? = some 0) :=
  ⟨by decide,
    decode_failure_truncates state_one_model 1 ⟨some ⟨1, 384⟩, some ⟨2⟩, false⟩ (by decide) rfl
      "Hello" (List.replicate 16 255) 16 (by decide) (by decide) engine_decode_fails
      (by decide) (by decide) 2 (by decide) (by decide) (by decide) (by decide)⟩

/-! ## Lemmas on sequences of calls -/

theorem generate_keeps_registry (s : State) (model_id : Int) (prompt : Option String)
    (out_buffer : Option (List Nat)) (out_buffer_size : Int) (eng : GenEngine) :
    (llama_generate_text s model_id prompt out_buffer out_buffer_size eng).state.g_models
      = s.g_models ∧
    (llama_generate_text s model_id prompt out_buffer out_buffer_size eng).state.g_next_model_id
      = s.g_next_model_id := by
  cases prompt <;> cases out_buffer <;> simp only [llama_generate_text] <;>
    (repeat' split) <;> simp [State.call]

theorem embed_keeps_registry (s : State) (model_id : Int) (text : Option String)
    (out_buffer : Option (List Nat)) (max_tokens : Int) (eng : EmbedEngine) :
    (llama_embed_text s model_id text out_buffer max_tokens eng).state.g_models
      = s.g_models ∧
    (llama_embed_text s model_id text out_buffer max_tokens eng).state.g_next_model_id
      = s.g_next_model_id := by
  cases text <;> cases out_buffer <;> simp only [llama_embed_text] <;>
    (repeat' split) <;> simp [State.call]

theorem get_embedding_dim_keeps_registry (s : State) (model_id : Int) :
    (llama_get_embedding_dim s model_id).state.g_models = s.g_models ∧
    (llama_get_embedding_dim s model_id).state.g_next_model_id = s.g_next_model_id := by
  simp only [llama_get_embedding_dim]
  split <;> simp [State.call]

theorem unload_registry (s : State) (model_id : Int) :
    ((llama_unload_model s model_id).state.g_models = s.g_models ∨
      (llama_unload_model s model_id).state.g_models = map_erase s.g_models model_id) ∧
    (llama_unload_model s model_id).state.g_next_model_id = s.g_next_model_id := by
  simp only [llama_unload_model]
  split
  · simp
  · rename_i mc _
    cases mc.ctx <;> cases mc.model <;> simp only [] <;> split <;>
      simp [State.call, llama_backend_free]

theorem load_failed_keeps_registry (s : State) (model_path : Option String)
    (is_embedding : Int) (eng : LoadEngine)
    (hfail : (Call.load model_path is_embedding eng).load_succeeds = false) :
    (llama_load_model s model_path is_embedding eng).state.g_models = s.g_models ∧
    (llama_load_model s model_path is_embedding eng).state.g_next_model_id
      = s.g_next_model_id := by
  cases model_path with
  | none => simp [llama_load_model]
  | some path =>
    cases hm : eng.model with
    | none => simp [llama_load_model, hm, llama_backend_free, llama_backend_init, State.call]
    | some model =>
      cases hc : eng.ctx with
      | none => simp [llama_load_model, hm, hc, llama_backend_free, llama_backend_init, State.call]
      | some ctx => simp [Call.load_succeeds, hm, hc] at hfail

theorem load_succeeded (s : State) (model_path : Option String)
    (is_embedding : Int) (eng : LoadEngine)
    (hok : (Call.load model_path is_embedding eng).load_succeeds = true) :
    (llama_load_model s model_path is_embedding eng).ret = s.g_next_model_id ∧
    (llama_load_model s model_path is_embedding eng).state.g_next_model_id
      = wrap_int32 (s.g_next_model_id + 1) ∧
    ∃ mc, (llama_load_model s model_path is_embedding eng).state.g_models
      = map_assign s.g_models s.g_next_model_id mc := by
  cases model_path with
  | none => simp [Call.load_succeeds] at hok
  | some path =>
    cases hm : eng.model with
    | none => simp [Call.load_succeeds, hm] at hok
    | some model =>
      cases hc : eng.ctx with
      | none => simp [Call.load_succeeds, hm, hc] at hok
      | some ctx =>
        simp [llama_load_model, hm, hc, llama_backend_init, State.call]

/-- A call that is not a successful load keeps the counter, and adds no key. -/
theorem step_not_load (s : State) (c : Call) (hc : c.load_succeeds = false) :
    (step s c).state.g_next_model_id = s.g_next_model_id ∧
    ∀ h, map_find s.g_models h = none → map_find (step s c).state.g_models h = none := by
  cases c with
  | load model_path is_embedding eng =>
    obtain ⟨h1, h2⟩ := load_failed_keeps_registry s model_path is_embedding eng hc
    exact ⟨h2, fun h hh => by simp only [step]; rw [h1]; exact hh⟩
  | unload model_id =>
    obtain ⟨h1, h2⟩ := unload_registry s model_id
    refine ⟨h2, fun h hh => ?_⟩
    simp only [step]
    rcases h1 with h1 | h1
    · rw [h1]; exact hh
    · rw [h1]
      by_cases hk : h = model_id
      · subst hk; exact map_find_erase_self _ _
      · rw [map_find_erase_ne _ _ _ hk]; exact hh
  | generate model_id prompt out_buffer out_buffer_size eng =>
    obtain ⟨h1, h2⟩ := generate_keeps_registry s model_id prompt out_buffer out_buffer_size eng
    exact ⟨h2, fun h hh => by simp only [step]; rw [h1]; exact hh⟩
  | get_embedding_dim model_id =>
    obtain ⟨h1, h2⟩ := get_embedding_dim_keeps_registry s model_id
    exact ⟨h2, fun h hh => by simp only [step]; rw [h1]; exact hh⟩
  | embed model_id text out_buffer max_tokens eng =>
    obtain ⟨h1, h2⟩ := embed_keeps_registry s model_id text out_buffer max_tokens eng
    exact ⟨h2, fun h hh => by simp only [step]; rw [h1]; exact hh⟩

/-- A successful load returns the counter, advances it (int32 arithmetic) and
registers the returned handle. -/
theorem step_load (s : State) (c : Call) (hc : c.load_succeeds = true) :
    (step s c).ret = s.g_next_model_id ∧
    (step s c).state.g_next_model_id = wrap_int32 (s.g_next_model_id + 1) ∧
    ∃ mc, (step s c).state.g_models = map_assign s.g_models s.g_next_model_id mc := by
  cases c with
  | load model_path is_embedding eng => exact load_succeeded s model_path is_embedding eng hc
  | unload model_id => simp [Call.load_succeeds] at hc
  | generate model_id prompt out_buffer out_buffer_size eng => simp [Call.load_succeeds] at hc
  | get_embedding_dim model_id => simp [Call.load_succeeds] at hc
  | embed model_id text out_buffer max_tokens eng => simp [Call.load_succeeds] at hc

theorem count_loads_cons (c : Call) (cs : List Call) :
    count_loads (c :: cs) = (if c.load_succeeds then 1 else 0) + count_loads cs := by
  unfold count_loads
  cases h : c.load_succeeds <;> simp [List.filter, h]; omega

theorem count_loads_append (a b : List Call) :
    count_loads (a ++ b) = count_loads a + count_loads b := by
  simp [count_loads]

theorem run_append (a b : List Call) : ∀ s, run s (a ++ b) = run (run s a) b := by
  induction a with
  | nil => intro s; rfl
  | cons c a ih => intro s; simp only [List.cons_append, run]; exact ih _

theorem handles_append (a b : List Call) :
    ∀ s, handles s (a ++ b) = handles s a ++ handles (run s a) b := by
  induction a with
  | nil => intro s; rfl
  | cons c a ih =>
    intro s
    simp only [List.cons_append, handles, run]
    split <;> simp [ih]

theorem wrap_int32_wrap_succ (x : Int) (n : Nat) :
    wrap_int32 (wrap_int32 (x + 1) + (n : Int)) = wrap_int32 (x + ((1 + n : Nat) : Int)) := by
  unfold wrap_int32
  push_cast
  omega

/-- The counter after a sequence of calls: advanced, in int32 arithmetic, by the
number of successful loads. -/
theorem run_next_model_id (cs : List Call) : ∀ s,
    (run s cs).g_next_model_id =
      if count_loads cs = 0 then s.g_next_model_id
      else wrap_int32 (s.g_next_model_id + (count_loads cs : Int)) := by
  induction cs with
  | nil => intro s; simp [run, count_loads]
  | cons c cs ih =>
    intro s
    simp only [run]
    rw [ih, count_loads_cons]
    cases hc : c.load_succeeds with
    | false =>
      rw [(step_not_load s c hc).1]
      simp
    | true =>
      rw [(step_load s c hc).2.1]
      by_cases h0 : count_loads cs = 0
      · simp [h0]
      · have h1 : ¬ (1 + count_loads cs = 0) := by omega
        simp only [h0, h1, if_false, if_true]
        exact wrap_int32_wrap_succ _ _

/-- While the counter stays inside int32, the handles of the successful loads
are the consecutive values of the counter. -/
theorem handles_consecutive (cs : List Call) : ∀ s,
    (count_loads cs ≠ 0 →
      -2147483648 ≤ s.g_next_model_id ∧
      s.g_next_model_id + (count_loads cs : Int) ≤ 2147483648) →
    handles s cs = (List.range (count_loads cs)).map (fun (i : Nat) => s.g_next_model_id + (i : Int)) := by
  induction cs with
  | nil => intro s _; simp [handles, count_loads]
  | cons c cs ih =>
    intro s hb
    rw [count_loads_cons] at hb ⊢
    simp only [handles]
    cases hc : c.load_succeeds with
    | false =>
      simp only [hc, Bool.false_eq_true, if_false, Nat.zero_add] at hb ⊢
      rw [ih _ (by rw [(step_not_load s c hc).1]; exact hb), (step_not_load s c hc).1]
    | true =>
      simp only [hc, if_true] at hb ⊢
      obtain ⟨hret, hnext, _⟩ := step_load s c hc
      have hb1 := hb (by omega)
      rw [Nat.add_comm 1 (count_loads cs), List.range_succ_eq_map, List.map_cons, List.map_map,
        hret]
      have hrest : handles (step s c).state cs
          = (List.range (count_loads cs)).map
              (fun (i : Nat) => (step s c).state.g_next_model_id + (i : Int)) := by
        apply ih
        intro h0
        rw [hnext]
        unfold wrap_int32
        push_cast at hb1
        omega
      rw [hrest]
      simp only [Nat.cast_zero, add_zero, List.cons.injEq, true_and]
      apply List.map_congr_left
      intro i hi
      have hi1 : i < count_loads cs := List.mem_range.mp hi
      rw [hnext]
      simp only [Function.comp, Nat.succ_eq_add_one]
      unfold wrap_int32
      push_cast at hb1 ⊢
      omega

theorem count_loads_rounds (start : Int) (n : Nat) :
    count_loads (load_unload_rounds start n) = n := by
  induction n with
  | zero => rfl
  | succ n ih =>
    simp only [load_unload_rounds, count_loads_append, ih]
    rfl

/-- A handle absent from the registry stays absent as long as the successful
loads are fewer than the steps the counter needs to reach it. -/
theorem absent_while_counter_away (h : Int) (cs : List Call) : ∀ t : State,
    map_find t.g_models h = none →
    (count_loads cs : Int) ≤ (h - t.g_next_model_id) % 4294967296 →
    map_find (run t cs).g_models h = none := by
  induction cs with
  | nil => intro t ht _; exact ht
  | cons c cs ih =>
    intro t ht hb
    rw [count_loads_cons] at hb
    simp only [run]
    cases hc : c.load_succeeds with
    | false =>
      simp only [hc, Bool.false_eq_true, if_false, Nat.zero_add] at hb
      apply ih
      · exact (step_not_load t c hc).2 h ht
      · rw [(step_not_load t c hc).1]; exact hb
    | true =>
      simp only [hc, if_true] at hb
      obtain ⟨_, hnext, mc, hmap⟩ := step_load t c hc
      have hne : h ≠ t.g_next_model_id := by
        intro heq
        rw [heq] at hb
        push_cast at hb
        omega
      apply ih
      · rw [hmap, map_find_assign_ne _ _ _ _ hne]; exact ht
      · rw [hnext]
        unfold wrap_int32
        push_cast at hb
        omega

theorem generate_absent (s : State) (model_id : Int)
    (habsent : map_find s.g_models model_id = none) (prompt : String) (buf : List Nat)
    (out_buffer_size : Int) (hsize : 0 < out_buffer_size) (eng : GenEngine) :
    (llama_generate_text s model_id (some prompt) (some buf) out_buffer_size eng).ret = -1 := by
  have h1 : ¬ out_buffer_size ≤ 0 := not_le.mpr hsize
  simp [llama_generate_text, h1, habsent, LLAMA_BRIDGE_ERROR_INVALID_MODEL_ID]

theorem embed_absent (s : State) (model_id : Int)
    (habsent : map_find s.g_models model_id = none) (text : String) (buf : List Nat)
    (max_tokens : Int) (hmax : 0 < max_tokens) (eng : EmbedEngine) :
    (llama_embed_text s model_id (some text) (some buf) max_tokens eng).ret = -1 := by
  have h1 : ¬ max_tokens ≤ 0 := not_le.mpr hmax
  simp [llama_embed_text, h1, habsent, LLAMA_BRIDGE_ERROR_INVALID_MODEL_ID]

theorem get_embedding_dim_absent (s : State) (model_id : Int)
    (habsent : map_find s.g_models model_id = none) :
    (llama_get_embedding_dim s model_id).ret = -1 := by
  simp [llama_get_embedding_dim, habsent, LLAMA_BRIDGE_ERROR_INVALID_MODEL_ID]

theorem unload_absent (s : State) (model_id : Int)
    (habsent : map_find s.g_models model_id = none) :
    (llama_unload_model s model_id).ret = -1 := by
  simp [llama_unload_model, habsent, LLAMA_BRIDGE_ERROR_INVALID_MODEL_ID]

theorem get_embedding_dim_present (s : State) (model_id : Int) (mc : ModelContext)
    (hfind : map_find s.g_models model_id = some mc) :
    (llama_get_embedding_dim s model_id).ret = llama_model_n_embd mc.model := by
  simp [llama_get_embedding_dim, hfind]

theorem load_registers (s : State) (path : String) (is_embedding : Int) (eng : LoadEngine)
    (model : llama_model) (ctx : llama_context)
    (hm : eng.model = some model) (hc : eng.ctx = some ctx) :
    map_find (llama_load_model s (some path) is_embedding eng).state.g_models s.g_next_model_id
      = some ⟨some model, some ctx, decide (is_embedding ≠ 0)⟩ := by
  simp only [llama_load_model, hm, hc]
  exact map_find_assign_self _ _ _

theorem unload_present (s : State) (model_id : Int) (mc : ModelContext)
    (hfind : map_find s.g_models model_id = some mc) :
    (llama_unload_model s model_id).ret = 0 ∧
    (llama_unload_model s model_id).state.g_models = map_erase s.g_models model_id ∧
    (llama_unload_model s model_id).state.g_next_model_id = s.g_next_model_id := by
  simp only [llama_unload_model, hfind]
  cases mc.ctx <;> cases mc.model <;> simp only [] <;> split <;>
    simp [State.call, llama_backend_free, LLAMA_BRIDGE_SUCCESS]

/-! ## C1: handles of successful loads -/

/-- C1 on the code: from the initial state, after 2^31 - 1 rounds of a
successful llama_load_model and the unload of its handle (handles
1 .. 2^31 - 1), the unguarded post-increment of the int32 counter (line 113)
has overflowed and the next successful llama_load_model returns -2147483648:
a handle that is neither >= 1, as the claim and llama_bridge.h (line 22)
require of a successful load, nor above the handles returned before. -/
theorem handle_after_counter_overflow :
    handles State.initial overflow_calls
      = (List.range 2147483647).map (fun (i : Nat) => (1 : Int) + (i : Int)) ++ [-2147483648] ∧
    ¬ (∀ h ∈ handles State.initial overflow_calls, 1 ≤ h) := by
  have hcount : count_loads (load_unload_rounds 1 2147483647) = 2147483647 :=
    count_loads_rounds 1 2147483647
  have hfirst : handles State.initial (load_unload_rounds 1 2147483647)
      = (List.range 2147483647).map (fun (i : Nat) => (1 : Int) + (i : Int)) := by
    have := handles_consecutive (load_unload_rounds 1 2147483647) State.initial
      (by intro _; rw [hcount]; decide)
    rw [hcount] at this
    exact this
  have hnext : (run State.initial (load_unload_rounds 1 2147483647)).g_next_model_id
      = -2147483648 := by
    rw [run_next_model_id, hcount]
    decide
  have hlast : handles (run State.initial (load_unload_rounds 1 2147483647))
      [Call.load (some "a.gguf") 0 engine_loads] = [-2147483648] := by
    have hs := step_load (run State.initial (load_unload_rounds 1 2147483647))
      (Call.load (some "a.gguf") 0 engine_loads) rfl
    simp only [handles, Call.load_succeeds, engine_loads, Option.isSome, Bool.and_self, if_true]
    rw [← hnext]
    exact congrArg (fun x => [x]) hs.1
  have hall : handles State.initial overflow_calls
      = (List.range 2147483647).map (fun (i : Nat) => (1 : Int) + (i : Int)) ++ [-2147483648] := by
    unfold overflow_calls
    rw [handles_append, hfirst, hlast]
  refine ⟨hall, ?_⟩
  intro hge
  have hmem : (-2147483648 : Int) ∈ handles State.initial overflow_calls := by
    rw [hall]
    exact List.mem_append_right _ (List.mem_singleton.mpr rfl)
  have := hge _ hmem
  omega

/-- Handles before the counter overflows: for every sequence of bridge calls
from the initial registry (empty map, next id 1) with at most 2^31 - 1
successful loads, the handles returned by the successful loads are all >= 1
and strictly increasing in call order: the k-th successful load returns k. -/
theorem handles_increasing_below_overflow (cs : List Call)
    (hloads : count_loads cs ≤ 2147483647) :
    (∀ h ∈ handles State.initial cs, 1 ≤ h) ∧
    (handles State.initial cs).Pairwise (fun a b => a < b) ∧
    handles State.initial cs
      = (List.range (count_loads cs)).map (fun (i : Nat) => (1 : Int) + (i : Int)) := by
  have heq : handles State.initial cs
      = (List.range (count_loads cs)).map (fun (i : Nat) => (1 : Int) + (i : Int)) := by
    have := handles_consecutive cs State.initial (by
      intro _
      simp only [State.initial]
      omega)
    exact this
  refine ⟨?_, ?_, heq⟩
  · intro h hh
    rw [heq] at hh
    obtain ⟨i, _, hi⟩ := List.mem_map.mp hh
    omega
  · rw [heq, List.pairwise_map]
    exact (List.pairwise_lt_range (count_loads cs)).imp (fun hab => by omega)

/-- The handles of the two successful loads of session_calls. -/
theorem handles_increasing_below_overflow_witness :
    (∀ h ∈ handles State.initial session_calls, 1 ≤ h) ∧
    (handles State.initial session_calls).Pairwise (fun a b => a < b) ∧
    handles State.initial session_calls
      = (List.range (count_loads session_calls)).map (fun (i : Nat) => (1 : Int) + (i : Int)) :=
  handles_increasing_below_overflow session_calls (by decide)

/-! ## C2: a handle after its unload -/

/-- C2 on the code: handle 1 is registered in state_one_model and
llama_unload_model 1 returns 0, after which handle 1 is absent.  After 2^32
further successful loads (each but the last unloaded again) the unguarded
int32 counter (line 113) has overflowed and issued handle 1 a second time, so
llama_get_embedding_dim 1 returns the width 384 and llama_unload_model 1
returns 0, where the claim says InvalidModelId (-1) for as long as the process
runs. -/
theorem unloaded_handle_reissued :
    map_find state_one_model.g_models 1 ≠ none ∧
    (llama_unload_model state_one_model 1).ret = 0 ∧
    map_find (llama_unload_model state_one_model 1).state.g_models 1 = none ∧
    (llama_get_embedding_dim
      (run (llama_unload_model state_one_model 1).state reissue_calls) 1).ret = 384 ∧
    (llama_unload_model
      (run (llama_unload_model state_one_model 1).state reissue_calls) 1).ret = 0 := by
  have hcount : count_loads (load_unload_rounds 2 4294967295) = 4294967295 :=
    count_loads_rounds 2 4294967295
  have hnext : (run (llama_unload_model state_one_model 1).state
      (load_unload_rounds 2 4294967295)).g_next_model_id = 1 := by
    rw [run_next_model_id, hcount]
    decide
  have hrun : run (llama_unload_model state_one_model 1).state reissue_calls
      = (llama_load_model (run (llama_unload_model state_one_model 1).state
          (load_unload_rounds 2 4294967295)) (some "b.gguf") 1 engine_loads).state := by
    unfold reissue_calls
    rw [run_append]
    rfl
  have hfind : map_find (run (llama_unload_model state_one_model 1).state
      reissue_calls).g_models 1 = some ⟨some ⟨1, 384⟩, some ⟨2⟩, decide ((1 : Int) ≠ 0)⟩ := by
    have hreg := load_registers (run (llama_unload_model state_one_model 1).state
      (load_unload_rounds 2 4294967295)) "b.gguf" 1 engine_loads ⟨1, 384⟩ ⟨2⟩ rfl rfl
    rw [hnext, ← hrun] at hreg
    exact hreg
  refine ⟨by decide, by decide, by decide, ?_, ?_⟩
  · rw [get_embedding_dim_present _ 1 _ hfind]
    rfl
  · exact (unload_present _ 1 _ hfind).1

/-- A handle after its unload, until the counter reaches it again: for every
registry state s and every handle h registered in it, llama_unload_model(h)
returns 0 and h is absent from the registry afterwards; after any sequence of
further bridge calls with at most (h - g_next_model_id) mod 2^32 successful
loads, h is still absent, and llama_generate_text, llama_embed_text (both with
otherwise valid arguments), llama_get_embedding_dim and llama_unload_model on
h each return InvalidModelId (-1). -/
theorem unloaded_handle_stays_invalid (s : State) (h : Int) (mc : ModelContext)
    (hreg : map_find s.g_models h = some mc) (cs : List Call)
    (hloads : (count_loads cs : Int) ≤ (h - s.g_next_model_id) % 4294967296)
    (prompt text : String) (out_text out_floats : List Nat) (out_buffer_size max_tokens : Int)
    (hsize : 0 < out_buffer_size) (hmax : 0 < max_tokens)
    (geng : GenEngine) (eeng : EmbedEngine) :
    (llama_unload_model s h).ret = 0 ∧
    map_find (llama_unload_model s h).state.g_models h = none ∧
    map_find (run (llama_unload_model s h).state cs).g_models h = none ∧
    (llama_generate_text (run (llama_unload_model s h).state cs) h (some prompt)
      (some out_text) out_buffer_size geng).ret = -1 ∧
    (llama_embed_text (run (llama_unload_model s h).state cs) h (some text)
      (some out_floats) max_tokens eeng).ret = -1 ∧
    (llama_get_embedding_dim (run (llama_unload_model s h).state cs) h).ret = -1 ∧
    (llama_unload_model (run (llama_unload_model s h).state cs) h).ret = -1 := by
  obtain ⟨hret, hmap, hnext⟩ := unload_present s h mc hreg
  have habs0 : map_find (llama_unload_model s h).state.g_models h = none := by
    rw [hmap]; exact map_find_erase_self _ _
  have habs : map_find (run (llama_unload_model s h).state cs).g_models h = none :=
    absent_while_counter_away h cs _ habs0 (by rw [hnext]; exact hloads)
  refine ⟨hret, habs0, habs, ?_, ?_, ?_, ?_⟩
  · exact generate_absent _ h habs prompt out_text out_buffer_size hsize geng
  · exact embed_absent _ h habs text out_floats max_tokens hmax eeng
  · exact get_embedding_dim_absent _ h habs
  · exact unload_absent _ h habs

/-- Handle 1 of state_two_models is unloaded, then later_calls run: the handle
stays invalid. -/
theorem unloaded_handle_stays_invalid_witness :
    (llama_unload_model state_two_models 1).ret = 0 ∧
    map_find (llama_unload_model state_two_models 1).state.g_models 1 = none ∧
    map_find (run (llama_unload_model state_two_models 1).state later_calls).g_models 1
      = none ∧
    (llama_generate_text (run (llama_unload_model state_two_models 1).state later_calls) 1
      (some "Hello") (some (List.replicate 16 255)) 16 engine_generates).ret = -1 ∧
    (llama_embed_text (run (llama_unload_model state_two_models 1).state later_calls) 1
      (some "cat") (some (List.replicate 4 9)) 64 engine_embeds).ret = -1 ∧
    (llama_get_embedding_dim
      (run (llama_unload_model state_two_models 1).state later_calls) 1).ret = -1 ∧
    (llama_unload_model (run (llama_unload_model state_two_models 1).state later_calls) 1).ret
      = -1 :=
  unloaded_handle_stays_invalid state_two_models 1 ⟨some ⟨1, 384⟩, some ⟨2⟩, false⟩
    (by decide) later_calls (by decide) "Hello" "cat" (List.replicate 16 255)
    (List.replicate 4 9) 16 64 (by decide) (by decide) engine_generates engine_embeds

end LlamaBridge
